import Mathlib

/-!
Verification development for the friendly-telegram command dispatcher
(src/friendly-telegram/dispatcher.py) and the helpers it uses from
src/friendly-telegram/utils.py (censor, escape_html).

The Python code is shallowly embedded: strings are Lean `String`s operated
on as lists of characters (Python indexes/slices code points), the external
key-value store is a `Db` record, the module registry / security gate /
session identity are a `Cfg` record, and the side effects of one call to
`handle_command` / `handle_incoming` (config write-back, message edits,
handler invocations, user notices, a re-raised exception) are returned
explicitly in a result record.  Handlers and watchers are modelled as
functions from the message they receive to `Option ε`: `some e` means the
call raised exception `e`, `none` means it completed.  The success of the
best-effort user-notice send is modelled by the `noticeFails` flag of `Cfg`
(the dispatcher swallows that failure via its `finally: raise e`).
-/

/-! Python string primitives, by code points, like Python `str`. -/

/-- Python `len(s)`: number of code points. -/
def pyLen (s : String) : Nat := s.toList.length

/-- Python `s[:n]` for `n ≥ 0`. -/
def pyTake (s : String) (n : Nat) : String := String.mk (s.toList.take n)

/-- Python `s[n:]` for `n ≥ 0`. -/
def pyDrop (s : String) (n : Nat) : String := String.mk (s.toList.drop n)

/-- Python `s.startswith(p)`. -/
def pyStartsWith (s p : String) : Bool := p.toList.isPrefixOf s.toList

/-- Python `n * s` (string repetition). -/
def pyRepeat (s : String) : Nat → String
  | 0 => ""
  | n + 1 => s ++ pyRepeat s n

/-- Python `s.lower()` (the dispatcher only compares ASCII handles). -/
def pyLower (s : String) : String := String.mk (s.toList.map Char.toLower)

/-- One scan step of Python `s.replace(pat, tmpl)`: fueled so that the
definition is structural (the fuel is the length of the scanned list, which
bounds the number of scan steps). -/
def pyReplaceAux (pat tmpl : List Char) : Nat → List Char → List Char
  | _, [] => []
  | 0, l => l
  | n + 1, c :: cs =>
    if pat.isPrefixOf (c :: cs) then
      tmpl ++ pyReplaceAux pat tmpl n (List.drop (pat.length - 1) cs)
    else
      c :: pyReplaceAux pat tmpl n cs

/-- Python `s.replace(pat, tmpl)`: leftmost, non-overlapping, scanning left
to right and continuing after each replacement. -/
def pyReplace (s pat tmpl : String) : String :=
  String.mk (pyReplaceAux pat.toList tmpl.toList s.toList.length s.toList)

/-- utils.escape_html: three sequential `str.replace` passes. -/
def escape_html (text : String) : String :=
  pyReplace (pyReplace (pyReplace text "&" "&amp;") "<" "&lt;") ">" "&gt;"

/-- Python `s.split(maxsplit=1)[0]`: first whitespace-delimited token, or
`none` when the string is empty/whitespace only (where the source's `[0]`
would raise `IndexError`). -/
def pyFirstToken (s : String) : Option String :=
  match s.toList.dropWhile Char.isWhitespace with
  | [] => none
  | c :: cs => some (String.mk ((c :: cs).takeWhile (fun ch => !ch.isWhitespace)))

/-- Split a character list at the first occurrence of `sep`:
returns (part before, `some` part after) or (whole list, `none`). -/
def splitOnceAt (sep : Char) : List Char → List Char × Option (List Char)
  | [] => ([], none)
  | c :: cs =>
    if c == sep then ([], some cs)
    else
      let r := splitOnceAt sep cs
      (c :: r.1, r.2)

/-- Python `command.split("@", maxsplit=1)`, as the pair
(`tag[0]`, `tag[1]` when present). -/
def splitTag (command : String) : String × Option String :=
  let r := splitOnceAt '@' command.toList
  (String.mk r.1, r.2.map String.mk)

/-- Truthiness of the `via_bot_id` field (`None`/`0` are falsy in Python). -/
def pyTruthyOptInt : Option Int → Bool
  | none => false
  | some n => n != 0

/-! Data model. -/

/-- A sub-object of the message carrying a sensitive field; `utils.censor`
recurses into attribute values that have a `__dict__`. -/
structure Sender where
  phone : String
  uname : String
deriving DecidableEq, Repr

/-- The fields of `event.message` that the dispatcher reads.  `chatId` is
the value of `utils.get_chat_id(message)` (a pure projection of the
message's addressing fields).  `message` is the text, rewritten in place by
the dispatcher. -/
structure Msg where
  message : String
  from_id : Option Int
  chatId : Int
  is_private : Bool
  sender : Sender
deriving DecidableEq, Repr

/-- The incoming event.  `hasMessage` models `hasattr(event, "message")`;
`sticker` and `via_bot_id` are the flags tested by `handle_command`. -/
structure Event where
  hasMessage : Bool
  message : Msg
  sticker : Bool
  via_bot_id : Option Int
deriving DecidableEq, Repr

/-- The persisted value under the `command_prefix` key: a legacy scalar
string or a list of strings. -/
inductive PrefVal where
  | str (s : String)
  | list (l : List String)
deriving DecidableEq, Repr

/-- An element of the persisted `blacklist_chats` list.  The source keeps
plain chat ids and `"<chat_id>.<module>"` strings in the same list; Python
`in` compares with `==`, and an int never equals a str, so the two kinds
never collide. -/
inductive BEntry where
  | chat (id : Int)
  | key (s : String)
deriving DecidableEq, Repr

/-- The external key-value store as read by the dispatcher.  `command_pfx`
models the `command_prefix` key (`none` = absent, so that `db.get(...,
False)` is falsy). -/
structure Db where
  command_pfx : Option PrefVal
  blacklist_chats : List BEntry
  whitelist_chats : List Int
  whitelist_modules : List String

/-- A registered command handler or watcher: its owning module
(`func.__self__.__module__`) and its behaviour, `some e` meaning the
invocation raised `e`. -/
structure Handler (ε : Type) where
  modName : String
  run : Msg → Option ε

/-- The dispatcher's fixed collaborators: session identity (`_bot`, `_me`,
`_cached_username`), the module registry (`dispatch`, `watchers`), the
security gate, and whether the best-effort notice send itself fails. -/
structure Cfg (ε : Type) where
  bot : Bool
  me : Int
  cachedUsername : String
  dispatch : String → String × Option (Handler ε)
  watchers : List (Handler ε)
  secCheck : Msg → Handler ε → Bool
  noticeFails : Bool

/-- A best-effort user notice: its text and whether the send succeeded. -/
structure Notice where
  text : String
  delivered : Bool
deriving DecidableEq, Repr

/-- The observable effects of one `handle_command` call.  `migrate` is the
value written back under `command_prefix` (if any); `escEdits` the texts
passed to `message.edit` by the self-escape step; `invoked` the (owning
module, message text) of the handler invocation (at most one); `notices`
the user-notice attempts; `raised` the exception re-raised to the caller;
`crashed` records the `IndexError` of `split(maxsplit=1)[0]` on a
whitespace-only remainder. -/
structure CmdResult (ε : Type) where
  migrate : Option (List String)
  escEdits : List String
  invoked : List (String × String)
  notices : List Notice
  raised : Option ε
  crashed : Bool
deriving DecidableEq, Repr

/-- The observable effects of one `handle_incoming` call: the watchers
actually invoked, in order, with each one's outcome, plus the exception
escaping the call (always `none`: the loop body swallows everything). -/
structure IncResult (ε : Type) where
  invoked : List (String × Option ε)
  escaped : Option ε
deriving DecidableEq, Repr

/-! utils.censor. -/

/-- The redaction placeholder: `"redacted_{count}_chars".format(count=n)`. -/
def redactedStr (n : Nat) : String := "redacted_" ++ toString n ++ "_chars"

mutual
/-- A reflective view of a Python object for `utils.censor`: a value
without `__dict__` (int/str/None, carried as its string form) or an object
with named attributes. -/
inductive PyVal : Type where
  | prim (s : String) : PyVal
  | obj (fs : PyFields) : PyVal

/-- The attribute list of a Python object (`vars(obj)` in order). -/
inductive PyFields : Type where
  | nil : PyFields
  | cons (k : String) (v : PyVal) (rest : PyFields) : PyFields
end

/-- Python `len(v)` as used by censor on a sensitive value (a string). -/
def pyValLen : PyVal → Nat
  | .prim s => pyLen s
  | .obj _ => 0

/-- `hasattr(v, "__dict__")`. -/
def isObjVal : PyVal → Bool
  | .prim _ => false
  | .obj _ => true

/-- Python `k[0]` of a nonempty attribute name. -/
def firstChar (s : String) : Char :=
  match s.toList with
  | [] => 'A'
  | c :: _ => c

mutual
/-- utils.censor: replace every attribute named in `tc` by
`tmpl(len(value))`, recurse into non-underscore attributes that are
objects, leave everything else unchanged. -/
def censorVal (tc : List String) (tmpl : Nat → String) : PyVal → PyVal
  | .prim s => .prim s
  | .obj fs => .obj (censorFields tc tmpl fs)

/-- The attribute loop of utils.censor. -/
def censorFields (tc : List String) (tmpl : Nat → String) : PyFields → PyFields
  | .nil => .nil
  | .cons k v rest =>
    if tc.contains k then
      .cons k (.prim (tmpl (pyValLen v))) (censorFields tc tmpl rest)
    else if firstChar k != '_' && isObjVal v then
      .cons k (censorVal tc tmpl v) (censorFields tc tmpl rest)
    else
      .cons k v (censorFields tc tmpl rest)
end

/-- `utils.censor` with its default arguments
(`to_censor=["phone"]`, `replace_with="redacted_{count}_chars"`). -/
def censorValD : PyVal → PyVal := censorVal ["phone"] redactedStr

/-- `utils.censor(message)` specialised to the `Msg` record: the only
sensitive field in the modelled shape is `sender.phone`, which censor's
recursion reaches through the non-underscore object attribute `sender`. -/
def censorMsg (m : Msg) : Msg :=
  { m with sender := { m.sender with phone := redactedStr (pyLen m.sender.phone) } }

/-- The reflective view of a `Sender`, for relating `censorMsg` to the
generic `censorVal`. -/
def Sender.toVal (s : Sender) : PyFields :=
  .cons "phone" (.prim s.phone) (.cons "username" (.prim s.uname) .nil)

/-- The reflective view of a `Msg`. -/
def Msg.toVal (m : Msg) : PyVal :=
  .obj (.cons "message" (.prim m.message)
       (.cons "from_id" (.prim (toString m.from_id))
       (.cons "chat_id" (.prim (toString m.chatId))
       (.cons "is_private" (.prim (toString m.is_private))
       (.cons "sender" (.obj m.sender.toVal) .nil)))))

/-! The dispatcher. -/

/-- Reading the `command_prefix` key (dispatcher.py lines 38-41):
`db.get(..., False) or ["."]`, then the legacy scalar is wrapped into a
one-element list and written back.  Returns (list actually used, value
written back if any). -/
def readPfxs : Option PrefVal → List String × Option (List String)
  | none => (["."], none)
  | some (.str s) => if s == "" then (["."], none) else ([s], some [s])
  | some (.list l) => if l.isEmpty then (["."], none) else (l, none)

/-- The first-match loop over configured command markers
(dispatcher.py lines 44-48). -/
def selectPfx : List String → String → Option String
  | [], _ => none
  | p :: ps, t => if pyStartsWith t p then some p else selectPfx ps t

/-- The chat-granularity deny test (dispatcher.py lines 61-62 and
116-117): blacklisted chat, non-empty whitelist missing the chat, or
absent sender. -/
def chatDenied (db : Db) (m : Msg) : Bool :=
  db.blacklist_chats.contains (BEntry.chat m.chatId)
  || (!db.whitelist_chats.isEmpty && !db.whitelist_chats.contains m.chatId)
  || m.from_id.isNone

/-- The `"<chat_id>.<module>"` composite key used by the module-level
filters. -/
def modKey (chatId : Int) (modN : String) : String :=
  toString chatId ++ "." ++ modN

/-- The self-escape edit (dispatcher.py lines 65-68): for a non-bot
session, text starting with the marker doubled and not consisting solely
of repetitions of it is edited to its HTML-escaped form with one leading
occurrence removed.  Returns the list of edits performed (zero or one). -/
def escEditList (bot : Bool) (pfx t : String) : List String :=
  if !bot && decide (pyLen pfx < pyLen t)
     && (pyTake t (pyLen pfx * 2) == pfx ++ pfx)
     && (t != pyRepeat pfx (pyLen t / pyLen pfx)) then
    [escape_html (pyDrop t (pyLen pfx))]
  else
    []

/-- The addressing test (dispatcher.py lines 76-78), on the already split
command token: stop when a tag is present and differs (lowercased) from
the cached handle, or when the sender is neither the session itself nor in
a private chat, unless the tag is the handle or the literal "me". -/
def addrStop (cfg : Cfg ε) (m : Msg) (tg : Option String) : Bool :=
  (match tg with
   | some t => pyLower t != cfg.cachedUsername
   | none => false)
  || ((m.from_id != some cfg.me && !m.is_private)
      && !(match tg with
           | some t => pyLower t == cfg.cachedUsername || pyLower t == "me"
           | none => false))

/-- An all-stops-empty result carrying only the config write-back and any
self-escape edit already performed. -/
def baseRes (mig : Option (List String)) (esc : List String) : CmdResult ε :=
  { migrate := mig, escEdits := esc, invoked := [], notices := [],
    raised := none, crashed := false }

/-- The generic bot notice text (dispatcher.py line 99). -/
def botNoticeText : String := "<b>Sorry, something went wrong!</b>"

/-- The detailed self notice text (dispatcher.py lines 101-105), built
from the command marker and the invocation text current at failure time. -/
def selfNoticeText (pfx invocation : String) : String :=
  "<b>Request failed! Request was</b> <code>" ++ escape_html invocation
  ++ "</code><b>. Please report it in the support group (</b><code>" ++ pfx
  ++ "support</code><b>) along with the logs (</b><code>" ++ pfx
  ++ "logs error</code><b>)</b>"

/-- The handler invocation and its failure handling (dispatcher.py lines
93-107): record the invocation; on `some e`, record exactly one notice
attempt (generic for a bot, detailed for a self session) and re-raise `e`
via the `finally`, whether or not the notice send itself failed. -/
def invokeStage (cfg : Cfg ε) (base : CmdResult ε) (pfx : String) (m3 : Msg)
    (func : Handler ε) : CmdResult ε :=
  match func.run m3 with
  | none => { base with invoked := [(func.modName, m3.message)] }
  | some e =>
    { base with
      invoked := [(func.modName, m3.message)],
      notices := [{ text := if cfg.bot then botNoticeText
                            else selfNoticeText pfx m3.message,
                    delivered := !cfg.noticeFails }],
      raised := some e }

/-- The tail of `handle_command` after the security check (dispatcher.py
lines 85-107): rewrite the text to canonical form, apply the module-level
blacklist then whitelist, and invoke. -/
def modFilterStage (cfg : Cfg ε) (db : Db) (base : CmdResult ε)
    (pfx : String) (m2 : Msg) (command canon : String) (func : Handler ε) :
    CmdResult ε :=
  let m3 : Msg := { m2 with message := canon ++ pyDrop m2.message (pyLen command) }
  if db.blacklist_chats.contains (BEntry.key (modKey m3.chatId func.modName)) then
    base
  else if !db.whitelist_modules.isEmpty
          && !(db.whitelist_modules.contains (modKey m3.chatId func.modName)) then
    base
  else
    invokeStage cfg base pfx m3 func

/-- CommandDispatcher.handle_command (dispatcher.py lines 35-107), as the
effects of one call.  The `event.sticker` test at lines 52-53 only emits a
debug log line, so the flag is never consulted here. -/
def handle_command (cfg : Cfg ε) (db : Db) (ev : Event) : CmdResult ε :=
  let rp := readPfxs db.command_pfx
  if !ev.hasMessage || (ev.message.message == "") then baseRes rp.2 []
  else
    match selectPfx rp.1 ev.message.message with
    | none => baseRes rp.2 []
    | some pfx =>
      if pyTruthyOptInt ev.via_bot_id then baseRes rp.2 []
      else
        let m1 := censorMsg ev.message
        if chatDenied db m1 then baseRes rp.2 []
        else
          let esc := escEditList cfg.bot pfx m1.message
          let m2 : Msg := { m1 with message := pyDrop m1.message (pyLen pfx) }
          if m2.message == "" then baseRes rp.2 esc
          else
            match pyFirstToken m2.message with
            | none => { baseRes rp.2 esc with crashed := true }
            | some command =>
              let tg := splitTag command
              if addrStop cfg m2 tg.2 then baseRes rp.2 esc
              else
                match (cfg.dispatch tg.1).2 with
                | none => baseRes rp.2 esc
                | some func =>
                  if !(cfg.secCheck m2 func) then baseRes rp.2 esc
                  else
                    modFilterStage cfg db (baseRes rp.2 esc) pfx m2 command
                      (cfg.dispatch tg.1).1 func

/-- The watcher loop of handle_incoming (dispatcher.py lines 120-131).
Note the module-level denial `return`s, aborting the whole fan-out, while
a watcher exception is caught and iteration continues. -/
def watchRun (db : Db) (m : Msg) : List (Handler ε) → List (String × Option ε)
  | [] => []
  | f :: rest =>
    if db.blacklist_chats.contains (BEntry.key (modKey m.chatId f.modName)) then []
    else if !db.whitelist_modules.isEmpty
            && !(db.whitelist_modules.contains (modKey m.chatId f.modName)) then []
    else (f.modName, f.run m) :: watchRun db m rest

/-- CommandDispatcher.handle_incoming (dispatcher.py lines 109-131), as
the effects of one call on `event.message`. -/
def handle_incoming (cfg : Cfg ε) (db : Db) (m0 : Msg) : IncResult ε :=
  let m := censorMsg m0
  if chatDenied db m then { invoked := [], escaped := none }
  else { invoked := watchRun db m cfg.watchers, escaped := none }

/-- The message as it stands after the marker is stripped
(dispatcher.py line 71). -/
def strippedMsg (ev : Event) (pfx : String) : Msg :=
  { censorMsg ev.message with
    message := pyDrop (censorMsg ev.message).message (pyLen pfx) }

/-- The message after the canonical-text rewrite (dispatcher.py line 85). -/
def rewrittenMsg (cfg : Cfg ε) (ev : Event) (pfx command : String) : Msg :=
  { strippedMsg ev pfx with
    message := (cfg.dispatch (splitTag command).1).1
               ++ pyDrop (strippedMsg ev pfx).message (pyLen command) }

/-- The module-level allow test, as one boolean (the conjunction of the
two separate guards of the source). -/
def modAllowed (db : Db) (chatId : Int) (modN : String) : Bool :=
  !(db.blacklist_chats.contains (BEntry.key (modKey chatId modN)))
  && !(!db.whitelist_modules.isEmpty
       && !(db.whitelist_modules.contains (modKey chatId modN)))

/-! Helper lemmas. -/

theorem modFilterStage_migrate (cfg : Cfg ε) (db : Db) (base : CmdResult ε)
    (pfx : String) (m2 : Msg) (command canon : String) (func : Handler ε) :
    (modFilterStage cfg db base pfx m2 command canon func).migrate = base.migrate := by
  unfold modFilterStage invokeStage
  dsimp only
  split
  · rfl
  · split
    · rfl
    · split <;> rfl

theorem handle_command_migrate (cfg : Cfg ε) (db : Db) (ev : Event) :
    (handle_command cfg db ev).migrate = (readPfxs db.command_pfx).2 := by
  unfold handle_command
  dsimp only
  split
  · rfl
  · split
    · rfl
    · split
      · rfl
      · split
        · rfl
        · split
          · rfl
          · split
            · rfl
            · split
              · rfl
              · split
                · rfl
                · split
                  · rfl
                  · exact modFilterStage_migrate ..

theorem handle_command_chat_denied (cfg : Cfg ε) (db : Db) (ev : Event)
    (h : chatDenied db (censorMsg ev.message) = true) :
    handle_command cfg db ev = baseRes (readPfxs db.command_pfx).2 [] := by
  unfold handle_command
  dsimp only
  split
  · rfl
  · split
    · rfl
    · split
      · rfl
      · simp [h]

theorem handle_incoming_chat_denied (cfg : Cfg ε) (db : Db) (m0 : Msg)
    (h : chatDenied db (censorMsg m0) = true) :
    handle_incoming cfg db m0 = { invoked := [], escaped := none } := by
  unfold handle_incoming
  simp [h]

theorem watchRun_eq (db : Db) (m : Msg) (ws : List (Handler ε)) :
    watchRun db m ws
      = (ws.takeWhile fun f => modAllowed db m.chatId f.modName).map
          (fun f => (f.modName, f.run m)) := by
  induction ws with
  | nil => rfl
  | cons f rest ih =>
    rw [watchRun, List.takeWhile_cons]
    cases h1 : db.blacklist_chats.contains (BEntry.key (modKey m.chatId f.modName)) with
    | true =>
      have h1m : BEntry.key (modKey m.chatId f.modName) ∈ db.blacklist_chats := by
        simpa using h1
      simp [modAllowed, h1, h1m]
    | false =>
      have h1m : BEntry.key (modKey m.chatId f.modName) ∉ db.blacklist_chats := by
        simpa using h1
      cases h2 : (!db.whitelist_modules.isEmpty
          && !(db.whitelist_modules.contains (modKey m.chatId f.modName))) with
      | true =>
        have h2m : ¬db.whitelist_modules = [] ∧ modKey m.chatId f.modName ∉ db.whitelist_modules := by
          simpa using h2
        simp [modAllowed, h1, h2, h1m, h2m.1, h2m.2]
      | false =>
        have h2m : db.whitelist_modules = [] ∨ modKey m.chatId f.modName ∈ db.whitelist_modules := by
          have h2i : ¬db.whitelist_modules = [] → modKey m.chatId f.modName ∈ db.whitelist_modules := by
            simpa using h2
          by_cases hwm : db.whitelist_modules = []
          · exact Or.inl hwm
          · exact Or.inr (h2i hwm)
        simp [modAllowed, h1, h2, h1m, h2m, ih]

theorem handle_command_reach (cfg : Cfg ε) (db : Db) (ev : Event)
    (pfx command : String) (func : Handler ε)
    (h1 : ev.hasMessage = true)
    (h2 : (ev.message.message == "") = false)
    (h3 : selectPfx (readPfxs db.command_pfx).1 ev.message.message = some pfx)
    (h4 : pyTruthyOptInt ev.via_bot_id = false)
    (h5 : chatDenied db (censorMsg ev.message) = false)
    (h6 : ((strippedMsg ev pfx).message == "") = false)
    (h7 : pyFirstToken (strippedMsg ev pfx).message = some command)
    (h8 : addrStop cfg (strippedMsg ev pfx) (splitTag command).2 = false)
    (h9 : (cfg.dispatch (splitTag command).1).2 = some func)
    (h10 : cfg.secCheck (strippedMsg ev pfx) func = true) :
    handle_command cfg db ev
      = modFilterStage cfg db
          (baseRes (readPfxs db.command_pfx).2
            (escEditList cfg.bot pfx (censorMsg ev.message).message))
          pfx (strippedMsg ev pfx) command (cfg.dispatch (splitTag command).1).1
          func := by
  unfold handle_command strippedMsg at *
  simp only [h1, h2, h3, h4, h5, h6, h7, h8, h9, h10, Bool.not_true, Bool.false_or,
    Bool.or_false, Bool.not_false, if_false, if_true]
  rfl

/-! Concrete fixtures used by witnesses and counterexamples. -/

def sendA : Sender := { phone := "5551234", uname := "alice" }

def dbNil : Db :=
  { command_pfx := none, blacklist_chats := [], whitelist_chats := [],
    whitelist_modules := [] }

def dbStr : Db := { dbNil with command_pfx := some (PrefVal.str ".") }

def dbList : Db := { dbNil with command_pfx := some (PrefVal.list ["a", "ab"]) }

def dbBlk : Db := { dbNil with blacklist_chats := [BEntry.key "7.mod_x"] }

def dbWl5 : Db := { dbNil with whitelist_chats := [5] }

def pingH : Handler Nat := { modName := "mods.ping", run := fun _ => none }

def boomH : Handler Nat := { modName := "mods.boom", run := fun _ => some 42 }

def litH : Handler Nat := { modName := "mods.lit", run := fun _ => none }

def wxH : Handler Nat := { modName := "mod_x", run := fun _ => some 7 }

def wyH : Handler Nat := { modName := "mod_y", run := fun _ => none }

/-- A self (non-bot) session, handle "botuser", own id 1, with a small
registry and two watchers (the first of which raises). -/
def cfgSelf : Cfg Nat :=
  { bot := false, me := 1, cachedUsername := "botuser",
    dispatch := fun t =>
      if t == "ping" then ("ping", some pingH)
      else if t == "boom" then ("boom", some boomH)
      else if t == ".literal" then (".literal", some litH)
      else (t, none),
    watchers := [wxH, wyH],
    secCheck := fun _ _ => true, noticeFails := false }

/-- Like `cfgSelf` but `ping` is owned by module `mod_y`. -/
def cfgModY : Cfg Nat :=
  { cfgSelf with
    dispatch := fun t => if t == "ping" then ("ping", some wyH) else (t, none) }

def evPing : Event :=
  { hasMessage := true,
    message := { message := ".ping hi", from_id := some 1, chatId := 7,
                 is_private := true, sender := sendA },
    sticker := false, via_bot_id := none }

def evMeTag : Event :=
  { evPing with
    message := { evPing.message with
                 message := ".ping@me", from_id := some 2,
                 is_private := false } }

def evBoom : Event :=
  { evPing with message := { evPing.message with message := ".boom now" } }

def evLit : Event :=
  { evPing with message := { evPing.message with message := "..literal" } }

def evHello : Event :=
  { evPing with message := { evPing.message with message := "hello" } }

def evSticker : Event := { evPing with sticker := true }

def msgW : Msg :=
  { message := "hello", from_id := some 2, chatId := 7, is_private := false,
    sender := sendA }

/-! Claims. -/

/-- C1: the claim says a group message `.ping@me` from a non-owner, with
`ping` registered and every filter and the security check allowing,
is dispatched (the explicit self-tag overriding the group restriction).
The code stops first at `tag[1].lower() != self._cached_username`
(dispatcher.py line 76), which fires for the tag `me` whenever the cached
handle is not literally "me", so the `"me"` exemption of line 78 is
unreachable and nothing is dispatched. -/
theorem C1_me_tag_not_dispatched :
    (handle_command cfgSelf dbNil evMeTag).invoked = []
    ∧ (cfgSelf.dispatch "ping").2.isSome = true
    ∧ evMeTag.message.is_private = false
    ∧ evMeTag.message.from_id ≠ some cfgSelf.me
    ∧ chatDenied dbNil (censorMsg evMeTag.message) = false
    ∧ cfgSelf.secCheck (strippedMsg evMeTag ".") pingH = true := by
  decide

/-- C7: utils.censor replaces a field named "phone" by the placeholder
`"redacted_{count}_chars"` instantiated with the field's length, leaves
every other field unchanged (it only recurses into non-underscore object
attributes), and every routing decision of the dispatcher — the marker
match, the chat filter, the addressing test, the module key, the command
tokenisation — computes the same value on the censored message as on the
original. -/
theorem C7_censor_frame (m : Msg) (db : Db) (cfg : Cfg ε)
    (ps : List String) (tg : Option String) :
    censorValD (Msg.toVal m) = Msg.toVal (censorMsg m)
    ∧ (censorMsg m).sender.phone = redactedStr (pyLen m.sender.phone)
    ∧ (censorMsg m).message = m.message
    ∧ (censorMsg m).from_id = m.from_id
    ∧ (censorMsg m).chatId = m.chatId
    ∧ (censorMsg m).is_private = m.is_private
    ∧ (censorMsg m).sender.uname = m.sender.uname
    ∧ selectPfx ps (censorMsg m).message = selectPfx ps m.message
    ∧ chatDenied db (censorMsg m) = chatDenied db m
    ∧ addrStop cfg (censorMsg m) tg = addrStop cfg m tg
    ∧ (∀ modN, modKey (censorMsg m).chatId modN = modKey m.chatId modN)
    ∧ pyFirstToken (censorMsg m).message = pyFirstToken m.message :=
  ⟨rfl, rfl, rfl, rfl, rfl, rfl, rfl, rfl, rfl, rfl, fun _ => rfl, rfl⟩

/-- C9: on every `handle_command` call the value written back to the store
is exactly the migration value of the read step; the list actually used is
never empty; an absent or empty persisted value yields the default `["."]`;
and a persisted non-empty scalar string is read as the one-element list and
that list is the value written back. -/
theorem C9_pfx_invariant (cfg : Cfg ε) (db : Db) (ev : Event) :
    (handle_command cfg db ev).migrate = (readPfxs db.command_pfx).2
    ∧ (readPfxs db.command_pfx).1 ≠ []
    ∧ (db.command_pfx = none ∨ db.command_pfx = some (PrefVal.str "")
        ∨ db.command_pfx = some (PrefVal.list []) →
        readPfxs db.command_pfx = (["."], none))
    ∧ (∀ s, s ≠ "" → db.command_pfx = some (PrefVal.str s) →
        readPfxs db.command_pfx = ([s], some [s])) := by
  refine ⟨handle_command_migrate .., ?_, ?_, ?_⟩
  · cases hdb : db.command_pfx with
    | none => simp [readPfxs]
    | some v =>
      cases v with
      | str s =>
        by_cases hs : s = "" <;> simp [readPfxs, hs]
      | list l =>
        cases l with
        | nil => simp [readPfxs]
        | cons a as => simp [readPfxs]
  · rintro (h | h | h) <;> simp [h, readPfxs]
  · intro s hs h
    simp [h, readPfxs, hs]

/-- C9 witness: with `"."` persisted as a scalar, the read yields `["."]`
and that list is written back by the call. -/
theorem C9_witness :
    readPfxs dbStr.command_pfx = (["."], some ["."])
    ∧ (handle_command cfgSelf dbStr evHello).migrate = (readPfxs dbStr.command_pfx).2 :=
  ⟨(C9_pfx_invariant cfgSelf dbStr evHello).2.2.2 "." (by decide) rfl,
   (C9_pfx_invariant cfgSelf dbStr evHello).1⟩

/-- C10: the sticker flag never affects `handle_command` (its only use is
a debug log line), and a sticker-flagged command is dispatched exactly like
a plain one: the concrete sticker event `.ping hi` reaches its handler. -/
theorem C10_sticker_no_effect (cfg : Cfg ε) (db : Db) (ev : Event) :
    handle_command cfg db { ev with sticker := true }
      = handle_command cfg db { ev with sticker := false }
    ∧ (handle_command cfgSelf dbNil evSticker).invoked = [("mods.ping", "ping hi")]
    ∧ evSticker.sticker = true := by
  refine ⟨rfl, by decide, rfl⟩

/-- C8: in both entry points an event is denied at chat granularity exactly
when its chat id is blacklisted, or the whitelist is non-empty and misses
it, or the sender identity is absent; denial means no handler, no escape
edit, no notice and no watcher; in particular `whitelist_chats = [5]` and
chat id 7 always deny, whatever the blacklist holds. -/
theorem C8_chat_filter (cfg : Cfg ε) (db : Db) (ev : Event) :
    (chatDenied db (censorMsg ev.message) = true
      ↔ (BEntry.chat ev.message.chatId ∈ db.blacklist_chats
          ∨ (db.whitelist_chats ≠ [] ∧ ev.message.chatId ∉ db.whitelist_chats)
          ∨ ev.message.from_id = none))
    ∧ (chatDenied db (censorMsg ev.message) = true →
        (handle_command cfg db ev).invoked = []
        ∧ (handle_command cfg db ev).escEdits = []
        ∧ (handle_command cfg db ev).notices = []
        ∧ (handle_incoming cfg db ev.message).invoked = [])
    ∧ (db.whitelist_chats = [5] → ev.message.chatId = 7 →
        (handle_command cfg db ev).invoked = []
        ∧ (handle_incoming cfg db ev.message).invoked = []) := by
  have hiff : chatDenied db (censorMsg ev.message) = true
      ↔ (BEntry.chat ev.message.chatId ∈ db.blacklist_chats
          ∨ (db.whitelist_chats ≠ [] ∧ ev.message.chatId ∉ db.whitelist_chats)
          ∨ ev.message.from_id = none) := by
    simp [chatDenied, censorMsg, List.isEmpty_iff, Option.isNone_iff_eq_none, or_assoc]
  have hden : chatDenied db (censorMsg ev.message) = true →
      (handle_command cfg db ev).invoked = []
      ∧ (handle_command cfg db ev).escEdits = []
      ∧ (handle_command cfg db ev).notices = []
      ∧ (handle_incoming cfg db ev.message).invoked = [] := by
    intro h
    rw [handle_command_chat_denied cfg db ev h, handle_incoming_chat_denied cfg db ev.message h]
    exact ⟨rfl, rfl, rfl, rfl⟩
  refine ⟨hiff, hden, ?_⟩
  intro hw hc
  refine (fun h => ⟨(hden h).1, (hden h).2.2.2⟩) ?_
  rw [hiff]
  refine Or.inr (Or.inl ⟨by simp [hw], ?_⟩)
  rw [hw, hc]
  decide

/-- C8 witness: with whitelist `[5]` and chat id 7, nothing runs. -/
theorem C8_witness :
    (handle_command cfgSelf dbWl5 evPing).invoked = []
    ∧ (handle_incoming cfgSelf dbWl5 evPing.message).invoked = [] :=
  (C8_chat_filter cfgSelf dbWl5 evPing).2.2 rfl rfl

/-- C4: when the chat filter passes and every watcher's module key passes
the module filter, `handle_incoming` invokes every registered watcher, in
registration order, with each one's outcome (including raised exceptions)
recorded individually, and no exception escapes the call — so a watcher
registered after a raising one still runs. -/
theorem C4_watcher_isolation (cfg : Cfg ε) (db : Db) (m0 : Msg)
    (hchat : chatDenied db (censorMsg m0) = false)
    (hmods : ∀ f ∈ cfg.watchers, modAllowed db (censorMsg m0).chatId f.modName = true) :
    (handle_incoming cfg db m0).invoked
      = cfg.watchers.map (fun f => (f.modName, f.run (censorMsg m0)))
    ∧ (handle_incoming cfg db m0).escaped = none := by
  unfold handle_incoming
  rw [if_neg (by simp [hchat])]
  exact ⟨by rw [watchRun_eq, List.takeWhile_eq_self_iff.mpr hmods], rfl⟩

/-- C4 witness: the first registered watcher raises (`wxH` returns
`some 7`) and the second (`wyH`) still runs; no exception escapes. -/
theorem C4_witness :
    (handle_incoming cfgSelf dbNil msgW).invoked
      = cfgSelf.watchers.map (fun f => (f.modName, f.run (censorMsg msgW)))
    ∧ (handle_incoming cfgSelf dbNil msgW).escaped = none :=
  C4_watcher_isolation cfgSelf dbNil msgW (by decide) (by decide)

/-- C3: when an invoked handler raises, `handle_command` makes exactly one
user-notice attempt — the generic text for a bot identity, the detailed
text embedding the (escaped) invocation text and the support hints for a
self identity — and re-raises the very same exception to the caller,
regardless of whether the notice send itself succeeded or failed
(`cfg.noticeFails` is arbitrary). -/
theorem C3_handler_failure (cfg : Cfg ε) (db : Db) (ev : Event)
    (pfx command : String) (func : Handler ε) (e : ε)
    (h1 : ev.hasMessage = true)
    (h2 : (ev.message.message == "") = false)
    (h3 : selectPfx (readPfxs db.command_pfx).1 ev.message.message = some pfx)
    (h4 : pyTruthyOptInt ev.via_bot_id = false)
    (h5 : chatDenied db (censorMsg ev.message) = false)
    (h6 : ((strippedMsg ev pfx).message == "") = false)
    (h7 : pyFirstToken (strippedMsg ev pfx).message = some command)
    (h8 : addrStop cfg (strippedMsg ev pfx) (splitTag command).2 = false)
    (h9 : (cfg.dispatch (splitTag command).1).2 = some func)
    (h10 : cfg.secCheck (strippedMsg ev pfx) func = true)
    (h11 : modAllowed db ev.message.chatId func.modName = true)
    (h12 : func.run (rewrittenMsg cfg ev pfx command) = some e) :
    (handle_command cfg db ev).notices
      = [{ text := if cfg.bot then botNoticeText
                   else selfNoticeText pfx (rewrittenMsg cfg ev pfx command).message,
           delivered := !cfg.noticeFails }]
    ∧ (handle_command cfg db ev).raised = some e
    ∧ (handle_command cfg db ev).invoked
      = [(func.modName, (rewrittenMsg cfg ev pfx command).message)] := by
  have hb : db.blacklist_chats.contains
      (BEntry.key (modKey ev.message.chatId func.modName)) = false := by
    revert h11
    unfold modAllowed
    cases db.blacklist_chats.contains (BEntry.key (modKey ev.message.chatId func.modName)) <;>
      simp
  have hw : (!db.whitelist_modules.isEmpty
      && !(db.whitelist_modules.contains (modKey ev.message.chatId func.modName))) = false := by
    revert h11
    unfold modAllowed
    cases hcb : db.blacklist_chats.contains (BEntry.key (modKey ev.message.chatId func.modName)) <;>
      cases hcw : (!db.whitelist_modules.isEmpty
        && !(db.whitelist_modules.contains (modKey ev.message.chatId func.modName))) <;>
      simp [hcb, hcw]
  rw [handle_command_reach cfg db ev pfx command func h1 h2 h3 h4 h5 h6 h7 h8 h9 h10]
  unfold modFilterStage invokeStage
  simp only [rewrittenMsg, strippedMsg, censorMsg] at h12 ⊢
  have hbm : BEntry.key (modKey ev.message.chatId func.modName) ∉ db.blacklist_chats := by
    simpa using hb
  have hwi : ¬db.whitelist_modules = [] →
      modKey ev.message.chatId func.modName ∈ db.whitelist_modules := by
    simpa using hw
  have hwc : ¬(¬db.whitelist_modules = []
      ∧ modKey ev.message.chatId func.modName ∉ db.whitelist_modules) :=
    fun h => h.2 (hwi h.1)
  simp [hbm, hwc, h12]

/-- C3 witness: `.boom now` raises 42 from a self session; one detailed
notice attempt is recorded and 42 is re-raised. -/
theorem C3_witness :
    (handle_command cfgSelf dbNil evBoom).notices
      = [{ text := if cfgSelf.bot then botNoticeText
                   else selfNoticeText "." (rewrittenMsg cfgSelf evBoom "." "boom").message,
           delivered := !cfgSelf.noticeFails }]
    ∧ (handle_command cfgSelf dbNil evBoom).raised = some 42
    ∧ (handle_command cfgSelf dbNil evBoom).invoked
      = [(boomH.modName, (rewrittenMsg cfgSelf evBoom "." "boom").message)] :=
  C3_handler_failure cfgSelf dbNil evBoom "." "boom" boomH 42
    rfl rfl rfl rfl rfl rfl rfl rfl rfl rfl (by decide) rfl

theorem modFilterStage_escEdits (cfg : Cfg ε) (db : Db) (base : CmdResult ε)
    (pfx : String) (m2 : Msg) (command canon : String) (func : Handler ε) :
    (modFilterStage cfg db base pfx m2 command canon func).escEdits = base.escEdits := by
  unfold modFilterStage invokeStage
  dsimp only
  split
  · rfl
  · split
    · rfl
    · split <;> rfl

theorem modFilterStage_invoked (cfg : Cfg ε) (db : Db) (base : CmdResult ε)
    (pfx : String) (m2 : Msg) (command canon : String) (func : Handler ε)
    (hbase : base.invoked = []) :
    (modFilterStage cfg db base pfx m2 command canon func).invoked
      = if modAllowed db m2.chatId func.modName
        then [(func.modName, canon ++ pyDrop m2.message (pyLen command))]
        else [] := by
  unfold modFilterStage invokeStage
  dsimp only
  cases hc1 : db.blacklist_chats.contains (BEntry.key (modKey m2.chatId func.modName)) with
  | true =>
    have hA : modAllowed db m2.chatId func.modName = false := by
      unfold modAllowed
      rw [hc1]
      rfl
    simp [hc1, hA, hbase]
  | false =>
    cases hc2 : (!db.whitelist_modules.isEmpty
        && !(db.whitelist_modules.contains (modKey m2.chatId func.modName))) with
    | true =>
      have hA : modAllowed db m2.chatId func.modName = false := by
        unfold modAllowed
        rw [hc1, hc2]
        rfl
      simp [hc1, hc2, hA, hbase]
    | false =>
      have hA : modAllowed db m2.chatId func.modName = true := by
        unfold modAllowed
        rw [hc1, hc2]
        rfl
      simp only [hc1, hc2, hA, Bool.false_eq_true, if_false, if_true]
      split <;> rfl

/-- C2 counterexample: with `"7.mod_x"` module-blacklisted, a chat-7
message passes the chat filter, yet `handle_incoming` runs no watcher at
all — in particular `mod_y`'s watcher, registered after `mod_x`'s, does
not run, contradicting the claim that other modules are unaffected. -/
theorem C2_counter :
    chatDenied dbBlk (censorMsg msgW) = false
    ∧ List.map (fun f => Handler.modName f) cfgSelf.watchers = ["mod_x", "mod_y"]
    ∧ (handle_incoming cfgSelf dbBlk msgW).invoked = [] := by
  decide

/-- C2 amended: a `"<chat_id>.<module>"` blacklist entry scopes per module
in `handle_command` (the resolved handler is denied exactly when its own
composite key is filtered), but in `handle_incoming` the watcher fan-out
runs only the longest allowed head of the registration list: it aborts at
the first watcher whose module key is filtered, so watchers registered
after the blacklisted module's watcher do not run, while earlier ones are
unaffected. -/
theorem C2_module_scope (cfg : Cfg ε) (db : Db) (ev : Event)
    (pfx command : String) (func : Handler ε)
    (h1 : ev.hasMessage = true)
    (h2 : (ev.message.message == "") = false)
    (h3 : selectPfx (readPfxs db.command_pfx).1 ev.message.message = some pfx)
    (h4 : pyTruthyOptInt ev.via_bot_id = false)
    (h5 : chatDenied db (censorMsg ev.message) = false)
    (h6 : ((strippedMsg ev pfx).message == "") = false)
    (h7 : pyFirstToken (strippedMsg ev pfx).message = some command)
    (h8 : addrStop cfg (strippedMsg ev pfx) (splitTag command).2 = false)
    (h9 : (cfg.dispatch (splitTag command).1).2 = some func)
    (h10 : cfg.secCheck (strippedMsg ev pfx) func = true) :
    (∀ m0 : Msg, (handle_incoming cfg db m0).invoked
        = if chatDenied db (censorMsg m0) then []
          else ((cfg.watchers.takeWhile
                  fun f => modAllowed db (censorMsg m0).chatId f.modName).map
              (fun f => (f.modName, f.run (censorMsg m0)))))
    ∧ (handle_command cfg db ev).invoked
        = (if modAllowed db ev.message.chatId func.modName
           then [(func.modName, (rewrittenMsg cfg ev pfx command).message)]
           else []) := by
  constructor
  · intro m0
    unfold handle_incoming
    cases hd : chatDenied db (censorMsg m0) with
    | true => simp [hd]
    | false => simp [hd, watchRun_eq]
  · rw [handle_command_reach cfg db ev pfx command func h1 h2 h3 h4 h5 h6 h7 h8 h9 h10,
      modFilterStage_invoked cfg db _ pfx (strippedMsg ev pfx) command
        (cfg.dispatch (splitTag command).1).1 func rfl]
    rfl

/-- C2 witness: `ping` owned by `mod_y` is dispatched in chat 7 even
though `"7.mod_x"` is blacklisted there, while the watcher fan-out for the
same chat invokes nothing because `mod_x`'s watcher is listed first. -/
theorem C2_witness :
    (handle_command cfgModY dbBlk evPing).invoked = [("mod_y", "ping hi")]
    ∧ (handle_incoming cfgModY dbBlk msgW).invoked = [] := by
  have h := C2_module_scope cfgModY dbBlk evPing "." "ping" wyH
    rfl rfl rfl rfl rfl rfl rfl rfl rfl rfl
  constructor
  · rw [h.2]
    decide
  · rw [h.1 msgW]
    decide

theorem handle_command_escEdits (cfg : Cfg ε) (db : Db) (ev : Event) (pfx : String)
    (h1 : ev.hasMessage = true)
    (h2 : (ev.message.message == "") = false)
    (h3 : selectPfx (readPfxs db.command_pfx).1 ev.message.message = some pfx)
    (h4 : pyTruthyOptInt ev.via_bot_id = false)
    (h5 : chatDenied db (censorMsg ev.message) = false) :
    (handle_command cfg db ev).escEdits
      = escEditList cfg.bot pfx (censorMsg ev.message).message := by
  unfold handle_command
  dsimp only
  simp only [h1, h2, h3, h4, h5, Bool.not_true, Bool.false_or, Bool.false_eq_true,
    if_false]
  split
  · rfl
  · split
    · rfl
    · split
      · rfl
      · split
        · rfl
        · split
          · rfl
          · exact modFilterStage_escEdits ..

theorem handle_command_invoked_src (cfg : Cfg ε) (db : Db) (ev : Event) (pfx : String)
    (h1 : ev.hasMessage = true)
    (h2 : (ev.message.message == "") = false)
    (h3 : selectPfx (readPfxs db.command_pfx).1 ev.message.message = some pfx)
    (h4 : pyTruthyOptInt ev.via_bot_id = false)
    (h5 : chatDenied db (censorMsg ev.message) = false) :
    (handle_command cfg db ev).invoked ≠ [] →
      ∃ command func,
        pyFirstToken (pyDrop (censorMsg ev.message).message (pyLen pfx)) = some command
        ∧ (cfg.dispatch (splitTag command).1).2 = some func := by
  unfold handle_command
  dsimp only
  simp only [h1, h2, h3, h4, h5, Bool.not_true, Bool.false_or, Bool.false_eq_true,
    if_false]
  split
  · intro hne
    simp [baseRes] at hne
  · split
    next =>
      intro hne
      simp [baseRes] at hne
    next command heq =>
      split
      · intro hne
        simp [baseRes] at hne
      · split
        next =>
          intro hne
          simp [baseRes] at hne
        next func hdisp =>
          split
          · intro hne
            simp [baseRes] at hne
          · intro _
            exact ⟨command, func, heq, hdisp⟩

def evDots : Event :=
  { evPing with message := { evPing.message with message := "..x" } }

/-- C5 counterexample: `..literal` from a self identity does trigger the
escape edit, but processing falls through (dispatcher.py has no return
after the edit), and with a registry resolving the stripped token
`.literal` a handler IS invoked for that event — contradicting the claim
that no handler is invoked. -/
theorem C5_counter :
    cfgSelf.bot = false
    ∧ pyTake evLit.message.message (pyLen "." * 2) = "." ++ "."
    ∧ evLit.message.message ≠ pyRepeat "." (pyLen evLit.message.message / pyLen ".")
    ∧ (handle_command cfgSelf dbNil evLit).escEdits
        = [escape_html (pyDrop evLit.message.message (pyLen "."))]
    ∧ (handle_command cfgSelf dbNil evLit).invoked = [("mods.lit", ".literal")] := by
  decide

/-- C5 amended: for a self (non-bot) session, a text beginning with the
chosen marker doubled and not consisting solely of marker repetitions is
edited to the HTML-escaped form with exactly one leading marker occurrence
removed; the edit itself invokes nothing, and processing then falls
through, so a handler is invoked for the event only when the
marker-stripped command token itself resolves through the registry. -/
theorem C5_self_escape (cfg : Cfg ε) (db : Db) (ev : Event) (pfx : String)
    (h1 : ev.hasMessage = true)
    (h2 : (ev.message.message == "") = false)
    (h3 : selectPfx (readPfxs db.command_pfx).1 ev.message.message = some pfx)
    (h4 : pyTruthyOptInt ev.via_bot_id = false)
    (h5 : chatDenied db (censorMsg ev.message) = false)
    (hbot : cfg.bot = false)
    (hlen : pyLen pfx < pyLen ev.message.message)
    (hdbl : pyTake ev.message.message (pyLen pfx * 2) = pfx ++ pfx)
    (hrep : ev.message.message ≠ pyRepeat pfx (pyLen ev.message.message / pyLen pfx)) :
    (handle_command cfg db ev).escEdits
      = [escape_html (pyDrop ev.message.message (pyLen pfx))]
    ∧ ((handle_command cfg db ev).invoked ≠ [] →
        ∃ command func,
          pyFirstToken (pyDrop ev.message.message (pyLen pfx)) = some command
          ∧ (cfg.dispatch (splitTag command).1).2 = some func) := by
  constructor
  · rw [handle_command_escEdits cfg db ev pfx h1 h2 h3 h4 h5]
    simp [escEditList, censorMsg, hbot, hlen, hdbl, hrep]
  · intro hne
    obtain ⟨c, f, hc, hf⟩ := handle_command_invoked_src cfg db ev pfx h1 h2 h3 h4 h5 hne
    exact ⟨c, f, by simpa [censorMsg] using hc, hf⟩

/-- C5 witness: `..x` from a self session is edited to the escaped `.x`;
here the stripped token resolves to nothing, so nothing is invoked. -/
theorem C5_witness :
    (handle_command cfgSelf dbNil evDots).escEdits
      = [escape_html (pyDrop evDots.message.message (pyLen "."))]
    ∧ ((handle_command cfgSelf dbNil evDots).invoked ≠ [] →
        ∃ command func,
          pyFirstToken (pyDrop evDots.message.message (pyLen ".")) = some command
          ∧ (cfgSelf.dispatch (splitTag command).1).2 = some func) :=
  C5_self_escape cfgSelf dbNil evDots "." rfl rfl rfl rfl rfl rfl
    (by decide) (by decide) (by decide)

theorem selectPfx_eq_some_iff (ps : List String) (t p : String) :
    selectPfx ps t = some p ↔
      ∃ l1 l2, ps = l1 ++ p :: l2 ∧ pyStartsWith t p = true
        ∧ ∀ q ∈ l1, pyStartsWith t q = false := by
  induction ps with
  | nil =>
    simp [selectPfx]
  | cons p0 ps ih =>
    rw [selectPfx]
    by_cases h : pyStartsWith t p0 = true
    · rw [if_pos h]
      constructor
      · intro hEq
        have hp : p0 = p := by
          injection hEq
        subst hp
        exact ⟨[], ps, rfl, h, by simp⟩
      · rintro ⟨l1, l2, hps, hp, hl1⟩
        cases l1 with
        | nil =>
          simp only [List.nil_append, List.cons.injEq] at hps
          rw [hps.1]
        | cons q l1' =>
          simp only [List.cons_append, List.cons.injEq] at hps
          have hq := hl1 q (by simp)
          rw [← hps.1] at hq
          rw [h] at hq
          cases hq
    · rw [if_neg h]
      rw [ih]
      have hfalse : pyStartsWith t p0 = false := by
        simpa using h
      constructor
      · rintro ⟨l1, l2, hps, hp, hl1⟩
        refine ⟨p0 :: l1, l2, by rw [hps, List.cons_append], hp, ?_⟩
        intro q hq
        rcases List.mem_cons.mp hq with hq0 | hq'
        · rw [hq0]
          exact hfalse
        · exact hl1 q hq'
      · rintro ⟨l1, l2, hps, hp, hl1⟩
        cases l1 with
        | nil =>
          simp only [List.nil_append, List.cons.injEq] at hps
          rw [hps.1] at hfalse
          rw [hp] at hfalse
          cases hfalse
        | cons q l1' =>
          simp only [List.cons_append, List.cons.injEq] at hps
          exact ⟨l1', l2, hps.2, hp, fun r hr => hl1 r (by simp [hr])⟩

/-- C6 counterexample: with the legacy scalar `"."` persisted and the text
`hello` matching no configured marker, `handle_command` invokes nothing —
but it does perform a side effect: the migration write-back of the scalar
to `["."]` happens before the marker check, contradicting the claim's "no
side effect". -/
theorem C6_counter :
    selectPfx (readPfxs dbStr.command_pfx).1 "hello" = none
    ∧ (handle_command cfgSelf dbStr evHello).invoked = []
    ∧ (handle_command cfgSelf dbStr evHello).migrate = some ["."] := by
  decide

/-- C6 amended: a message starting with none of the configured markers
triggers no handler, no edit, no notice and no exception — the only
possible side effect is the legacy marker-migration write-back, which
happens regardless of the text; and the chosen marker is the first entry
in configured list order whose text the message starts with (list order
breaks ties, not longest match). -/
theorem C6_marker_selection (cfg : Cfg ε) (db : Db) (ev : Event)
    (ps : List String) (t p : String) :
    (selectPfx (readPfxs db.command_pfx).1 ev.message.message = none →
      handle_command cfg db ev = baseRes (readPfxs db.command_pfx).2 [])
    ∧ (selectPfx ps t = some p ↔
        ∃ l1 l2, ps = l1 ++ p :: l2 ∧ pyStartsWith t p = true
          ∧ ∀ q ∈ l1, pyStartsWith t q = false) := by
  refine ⟨?_, selectPfx_eq_some_iff ps t p⟩
  intro h
  unfold handle_command
  dsimp only
  split
  · rfl
  · rw [h]

/-- C6 witness: `hello` matches neither of `["a", "ab"]`, so the call
reduces to the no-effect result; and on `abc` the chosen marker is `a`,
the first match in list order, not the longer `ab`. -/
theorem C6_witness :
    handle_command cfgSelf dbList evHello = baseRes (readPfxs dbList.command_pfx).2 []
    ∧ selectPfx ["a", "ab"] "abc" = some "a" :=
  ⟨(C6_marker_selection cfgSelf dbList evHello ["a", "ab"] "abc" "a").1 (by decide),
   (C6_marker_selection cfgSelf dbList evHello ["a", "ab"] "abc" "a").2.mpr
     ⟨[], ["ab"], rfl, by decide, by simp⟩⟩
